import Mathlib

/-!
Shallow embedding of the Anorvis orchestrator agent system
(src/src/aiq/tool/agents: anorvis/anorvis.py, backrub/backrub.py,
warren/warren.py).

The orchestrator routes a user query through a classifier, one of four
route handlers (research worker, finance worker, coordination of both,
or a direct general answer), and a finalizer.  Generation-capability
(LLM) calls are modelled as oracle functions from message lists to
`Except String String`; lookup-tool calls are modelled by explicit
outcome values.  Python strings are modelled by Lean `String`
(code-point lists), Python slicing `s[:n]` by `strTake s n`, Python
substring tests by `strContains`, `str.strip`/`lower`/`split` by the
explicit char-list functions below.
-/

namespace Anorvis

set_option maxRecDepth 8000

/-! ### String primitives modelling the Python operations used by the agents -/

/-- Is the first list a prefix of the second?  Models matching a Python
substring at one position. -/
def isPreL : List Char → List Char → Bool
  | [], _ => true
  | _ :: _, [] => false
  | p :: ps, c :: cs => p == c && isPreL ps cs

/-- Does `pat` occur somewhere in the list?  Models Python `pat in s`. -/
def containsL (pat : List Char) : List Char → Bool
  | [] => isPreL pat []
  | c :: cs => isPreL pat (c :: cs) || containsL pat cs

/-- Python substring test `pat in s` (for nonempty literal patterns). -/
def strContains (s pat : String) : Bool := containsL pat.data s.data

/-- The suffix of the list after the last occurrence of `pat`, if `pat`
occurs at all. -/
def afterLastL (pat : List Char) : List Char → Option (List Char)
  | [] => none
  | c :: cs =>
    match afterLastL pat cs with
    | some r => some r
    | none => if isPreL pat (c :: cs) then some ((c :: cs).drop pat.length) else none

/-- Python `s.split(pat)[-1]` for a nonempty, non-self-overlapping
separator: the text after the last occurrence of `pat`, or all of `s`
when `pat` does not occur. -/
def splitLastStr (s pat : String) : String :=
  match afterLastL pat.data s.data with
  | some r => String.mk r
  | none => s

/-- The whitespace characters removed by Python `str.strip()`. -/
def isSpaceC (c : Char) : Bool :=
  c == ' ' || c == '\t' || c == '\n' || c == '\r' || c == '\x0b' || c == '\x0c'

/-- Drop the longest suffix all of whose characters satisfy `p`. -/
def dropWhileEndL (p : Char → Bool) (l : List Char) : List Char :=
  (l.reverse.dropWhile p).reverse

/-- Python `str.strip()`: remove leading and trailing whitespace. -/
def pyStripWs (s : String) : String :=
  String.mk (dropWhileEndL isSpaceC (s.data.dropWhile isSpaceC))

/-- Python `str.strip(chars)`: remove leading and trailing characters
belonging to `cs`. -/
def pyStripSet (cs : List Char) (s : String) : String :=
  String.mk (dropWhileEndL (fun c => cs.contains c) (s.data.dropWhile (fun c => cs.contains c)))

/-- Python `str.lower()` (ASCII letters, which is all the classifier
tokens use). -/
def lowerStr (s : String) : String := String.mk (s.data.map Char.toLower)

/-- Python slicing `s[:n]` by code points. -/
def strTake (s : String) (n : Nat) : String := String.mk (s.data.take n)

/-- A single-quote character as a one-character string. -/
def sq : String := String.mk [Char.ofNat 39]

/-- Python truthiness of a string: nonempty. -/
def truthy (s : String) : Bool := s != ""

/-! ### Classifier normalization (anorvis.py lines 168-191) -/

/-- The cleanup applied to the raw completion of the classification call
(anorvis.py lines 169-177): strip and lower-case, take the text after
the last `"classification:"` if present, then after the last colon if
one remains, then strip surrounding single quotes, double quotes and
spaces. -/
def normalizeClassification (raw : String) : String :=
  let c0 := lowerStr (pyStripWs raw)
  let c1 := if strContains c0 "classification:" then pyStripWs (splitLastStr c0 "classification:") else c0
  let c2 := if strContains c1 ":" then pyStripWs (splitLastStr c1 ":") else c1
  pyStripSet [Char.ofNat 39, Char.ofNat 34, ' '] c2

/-- The `current_agent` value set from a cleaned classification token
(anorvis.py lines 181-189). -/
def agentFor (classification : String) : String :=
  if classification = "coordinate" then "coordinator"
  else if classification = "backrub" then "backrub"
  else if classification = "warren" then "warren"
  else "general"

/-! ### Oracles for the external generation capability and lookup tools

An LLM call site receives a list of (role, content) messages and either
returns completion text or raises a provider error; a lookup-tool call
either raises or returns text. -/

/-- A message list as passed to a generation-capability call. -/
abbrev Msgs := List (String × String)

/-- A generation-capability instance: may raise (`Except.error`). -/
abbrev LLM := Msgs → Except String String

/-- The outcome of one lookup-tool invocation: the call raised, or
returned text (possibly empty, which Python treats as falsy). -/
inductive CallOutcome
  | raised
  | ok (s : String)
deriving DecidableEq

/-- The external collaborators of one orchestrated invocation: the
orchestrator LLM and its configured system prompt, the research
worker's LLM and its two optional search tools (`toolsAvail` is false
when `builder.get_tool` raised, in which case both tools are skipped),
and the finance worker's LLM. -/
structure Env where
  llmA : LLM
  sysPromptA : String
  llmB : LLM
  toolsAvail : Bool
  webCall : CallOutcome
  wikiCall : CallOutcome
  llmW : LLM

/-! ### Backrub research worker (backrub.py lines 39-147) -/

/-- The financial-context analysis prompt built by Backrub
(backrub.py lines 68-89). -/
def backrubAnalysisPromptStr (query : String) : String :=
  "\nYou are analyzing a research query to determine if financial expertise would add value to the analysis.\n\nQuery: "
  ++ query ++
  "\n\nThink through this reasoning framework:\n\n1. **Financial Context**: Does this query involve financial markets, investments, companies, \n   economic indicators, or financial decision-making?\n\n2. **Value Addition**: Would having financial analysis (risk assessment, investment advice, \n   market analysis) provide significant additional value beyond the research?\n\n3. **User Intent**: Is the user likely looking for actionable financial insights, \n   investment recommendations, or financial planning advice?\n\nRespond with ONLY:\n- "
  ++ sq ++ "financial" ++ sq ++ " if financial expertise would add significant value\n- "
  ++ sq ++ "general" ++ sq ++ " if this is general research without strong financial context\n\nReasoning: Focus on user value, not just keywords.\n"

/-- The message list of Backrub's single LLM call (backrub.py lines 92-95). -/
def backrubAnalysisMsgs (query : String) : Msgs :=
  [("system", "You are a research analysis expert."), ("user", backrubAnalysisPromptStr query)]

/-- The labeled section produced from a successful, nonempty web-search
result (backrub.py lines 107-109). -/
def webSection (w : String) : String := "**Current Web Search Results:**\n" ++ w

/-- The labeled section produced from a successful, nonempty Wikipedia
result (backrub.py lines 118-121). -/
def wikiSection (w : String) : String := "**Wikipedia Background:**\n" ++ w

/-- The contribution of one guarded tool call: a raised call or an empty
result contributes nothing (backrub.py lines 101-123). -/
def toolContribution (o : CallOutcome) (section_ : String → String) : List String :=
  match o with
  | .raised => []
  | .ok s => if s = "" then [] else [section_ s]

/-- The `research_results` list accumulated by Backrub: web search then
Wikipedia, each only when the tools were obtained and the call returned
nonempty text (backrub.py lines 99-123). -/
def backrubContributions (e : Env) : List String :=
  (if e.toolsAvail then toolContribution e.webCall webSection else [])
    ++ (if e.toolsAvail then toolContribution e.wikiCall wikiSection else [])

/-- Backrub's response when at least one tool contributed
(backrub.py line 130). -/
def foundText (query combined : String) : String :=
  "Hey! I just looked into " ++ sq ++ query ++ sq ++ " for you. Here" ++ sq
  ++ "s what I found:\n\n" ++ combined

/-- Backrub's response when no tool produced output (backrub.py line 132). -/
def noToolText (query : String) : String :=
  "Hey! I tried to look into " ++ sq ++ query ++ sq ++ " for you, but I couldn" ++ sq
  ++ "t find much current info. You might want to try a different search or ask me something else!"

/-- The suffix appended when Backrub's analysis detected financial
context (backrub.py line 139). -/
def finTail : String :=
  "\n\nThis seems like something where some financial advice could really help you out. Want me to connect you with my friend who knows that stuff?"

/-- The suffix appended otherwise (backrub.py lines 141-143). -/
def generalTail : String :=
  "\n\nHope that helps! Let me know if you need anything else."

/-- The Backrub research worker `_backrub(query)` (backrub.py lines
39-145): one LLM analysis call, two independently guarded tool calls,
section concatenation with a no-tool fallback message, and a referral
suffix chosen by a substring scan of the analysis answer. -/
def backrubRespond (e : Env) (query : String) : Except String String :=
  match e.llmB (backrubAnalysisMsgs query) with
  | .error err => .error err
  | .ok analysisRaw =>
    let financialAnalysisNeeded := lowerStr (pyStripWs analysisRaw)
    let researchResults := backrubContributions e
    let base :=
      if researchResults.isEmpty then noToolText query
      else foundText query (String.intercalate "\n\n---\n\n" researchResults)
    .ok (if strContains financialAnalysisNeeded "financial" then base ++ finTail
         else base ++ generalTail)

/-! ### Warren finance worker (warren.py lines 40-157) -/

/-- The final-analysis advice prompt (warren.py lines 61-71), used when
the incoming query embeds research. -/
def warrenFinalAdvicePromptStr (query : String) : String :=
  "\nYou are a confident financial advisor. " ++ query ++
  "\n\nProvide specific, actionable financial advice. Be confident and direct. Give concrete recommendations and explain your reasoning.\n\nIf this is about stocks or investments, provide specific stock recommendations with reasoning.\nIf this is about financial planning, give specific steps and strategies.\nIf this is about budgeting, provide concrete budgeting advice.\n\nBe helpful, confident, and specific!\n"

/-- The research-need analysis prompt (warren.py lines 82-106). -/
def warrenAnalysisPromptStr (query : String) : String :=
  "\nYou are analyzing a financial query to determine if additional research would add value to the analysis.\n\nQuery: "
  ++ query ++
  "\n\nThink through this reasoning framework:\n\n1. **Research Context**: Does this query require current market data, recent events, \n   industry trends, or up-to-date information that might not be in your knowledge base?\n\n2. **Value Addition**: Would having current research (market trends, recent news, \n   industry analysis) provide significant additional value to the financial analysis?\n\n3. **User Intent**: Is the user likely looking for actionable insights based on \n   current market conditions, recent developments, or timely information?\n\n4. **Information Currency**: Does this query benefit from the most current \n   information rather than general financial principles?\n\nRespond with ONLY:\n- "
  ++ sq ++ "research" ++ sq ++ " if current research would add significant value\n- "
  ++ sq ++ "general" ++ sq ++ " if this can be answered with general financial knowledge\n\nReasoning: Focus on whether current, researched information would improve the analysis.\n"

/-- The coordination-suggestion response Warren returns when research
would add value (warren.py lines 122-133). -/
def warrenSuggestText : String :=
  "\nHey! I" ++ sq ++ "d love to help you with some financial advice, but I think we" ++ sq
  ++ "d both benefit from getting some current market info first.\n\nWhat I can help you with:\n- Understanding investment strategies\n- Risk assessment and portfolio planning\n- Financial analysis and recommendations\n\nMy suggestion: Let me connect you with my research buddy who can get us the latest market data and trends. Then I can give you some solid financial advice based on what"
  ++ sq ++ "s actually happening right now.\n\nSound good? Just ask Anorvis to coordinate us and we"
  ++ sq ++ "ll get you sorted!\n"

/-- The direct advice prompt (warren.py lines 139-149). -/
def warrenAdvicePromptStr (query : String) : String :=
  "\nYou are a confident financial advisor. The user is asking: " ++ query ++
  "\n\nProvide specific, actionable financial advice. Be confident and direct. Give concrete recommendations and explain your reasoning.\n\nIf this is about stocks or investments, provide specific stock recommendations with reasoning.\nIf this is about financial planning, give specific steps and strategies.\nIf this is about budgeting, provide concrete budgeting advice.\n\nBe helpful, confident, and specific!\n"

/-- The Warren finance worker `_warren(query)` (warren.py lines 40-157):
a final-analysis branch when the query embeds research, otherwise an
LLM research-need analysis followed by either a coordination suggestion
or a direct LLM advice answer. -/
def warrenRespond (e : Env) (query : String) : Except String String :=
  if strContains query "research that has been done" || strContains query "Based on this research" then
    match e.llmW [("system", "You are a confident financial advisor."), ("user", warrenFinalAdvicePromptStr query)] with
    | .error err => .error err
    | .ok r => .ok r
  else
    match e.llmW [("system", "You are a financial analysis expert."), ("user", warrenAnalysisPromptStr query)] with
    | .error err => .error err
    | .ok analysisRaw =>
      let researchNeeded := lowerStr (pyStripWs analysisRaw)
      if strContains researchNeeded "research" then .ok warrenSuggestText
      else
        match e.llmW [("system", "You are a confident financial advisor."), ("user", warrenAdvicePromptStr query)] with
        | .error err => .error err
        | .ok r => .ok r

/-! ### Anorvis orchestrator (anorvis.py lines 25-399) -/

/-- The `AnorvisState` TypedDict (anorvis.py lines 25-36); messages are
kept as their content strings. -/
structure AnorvisState where
  messages : List String
  current_agent : String
  coordination_needed : Bool
  suggested_agent : String
  research_results : String
  financial_analysis : String
  final_response : String
  original_query : String
deriving DecidableEq

/-- The initial state built by `_anorvis` (anorvis.py lines 69-78). -/
def initialState (query : String) : AnorvisState :=
  ⟨[query], "", false, "", "", "", "", query⟩

/-- The worker invocations made during one orchestrated run: the prompt
passed to the Backrub agent and the prompts passed to the Warren agent,
in order. -/
structure Trace where
  backrubCalls : List String
  warrenCalls : List String
deriving DecidableEq

/-- The empty trace. -/
def Trace.empty : Trace := ⟨[], []⟩

/-- The default system prompt of the orchestrator configuration
(anorvis.py lines 41-50). -/
def anorvisSystemPromptText : String :=
  "You are Anorvis, an intelligent AI assistant that coordinates specialized agents.\nYou analyze user requests and route them to the appropriate specialist agent.\nYou can also coordinate between agents when they suggest it.\nYou only handle general queries and time/date requests directly when no specialist agent is available.\nIMPORTANT: If you are handling a query directly (not routing to specialists), be honest about your limitations.\nDo not claim to have information from other agents unless you actually called them.\nFor research, news, or information gathering requests, you should route to Backrub instead of handling them directly."

/-- The routing prompt of the classifier (anorvis.py lines 132-161); the
placeholder text between braces is part of the literal, never formatted. -/
def routerPromptStr : String :=
  "\nYou are an intelligent query classifier. Your job is to analyze user requests and determine which specialist agent(s) would be best suited to handle them.\n\nThink through the following reasoning framework:\n\n1. **Research Needs**: Does this query require gathering information, facts, data, or current events?\n   - Examples: \"what is\", \"how does\", \"find\", \"research\", \"latest\", \"current\", \"news\", \"data\"\n\n2. **Financial Analysis**: Does this query involve money, investments, markets, budgeting, or financial planning?\n   - Examples: \"invest\", \"buy\", \"market\", \"budget\", \"financial\", \"cost\", \"profit\", \"portfolio\"\n\n3. **Coordination Required**: Does this query benefit from BOTH research AND financial analysis?\n   - **CRITICAL**: Investment-related queries (stocks, investments, buying, etc.) almost always need coordination\n   - Examples: \"promising stocks to buy\", \"investment opportunities\", \"market analysis\", \"what should I invest in\"\n   - Think: Does the user want actionable advice that requires current data AND financial expertise?\n\n4. **General Queries**: Simple questions, greetings, or requests that don"
  ++ sq ++ "t fit the above categories.\n\n**Your Task**: \nAnalyze the user query and respond with ONLY one category:\n- "
  ++ sq ++ "backrub" ++ sq ++ " (research needed)\n- "
  ++ sq ++ "warren" ++ sq ++ " (financial analysis needed) \n- "
  ++ sq ++ "coordinate" ++ sq ++ " (both research and financial analysis would be valuable)\n- "
  ++ sq ++ "general" ++ sq ++ " (simple query, no specialist needed)\n\n**IMPORTANT**: When in doubt about investment queries, choose "
  ++ sq ++ "coordinate" ++ sq ++ ". \nInvestment advice without current research is often outdated or incomplete.\n\nUser query: {input}\nClassification:"

/-- The message list of the classification call (anorvis.py lines
163-166). -/
def classifyMsgs (query : String) : Msgs :=
  [("system", routerPromptStr), ("human", query)]

/-- The `classify_query` node (anorvis.py lines 122-191): one LLM call,
normalization of its completion, and assignment of `current_agent`. -/
def classify_query (e : Env) (st : AnorvisState) : Except String AnorvisState :=
  match e.llmA (classifyMsgs (st.messages.getLastD "")) with
  | .error err => .error err
  | .ok raw =>
    .ok { st with current_agent := agentFor (normalizeClassification raw) }

/-- The `route_decision` conditional-edge function (anorvis.py lines
193-208). -/
def route_decision (st : AnorvisState) : String :=
  if st.current_agent = "coordinator" then "coordinate"
  else if st.current_agent = "backrub" then "backrub"
  else if st.current_agent = "warren" then "warren"
  else "general"

/-- The `route_to_backrub` node (anorvis.py lines 210-227): invoke the
Backrub agent, record a referral signal when its response mentions
"coordinate" or "warren", and store the result. -/
def route_to_backrub (e : Env) (st : AnorvisState) : Except String AnorvisState × Trace :=
  match backrubRespond e (st.messages.getLastD "") with
  | .error err => (.error err, ⟨[st.messages.getLastD ""], []⟩)
  | .ok response =>
    if strContains (lowerStr response) "coordinate" || strContains (lowerStr response) "warren" then
      (.ok { st with coordination_needed := true, suggested_agent := "warren",
                     research_results := response,
                     messages := st.messages ++ ["Backrub response: " ++ response] },
       ⟨[st.messages.getLastD ""], []⟩)
    else
      (.ok { st with research_results := response,
                     messages := st.messages ++ ["Backrub response: " ++ response] },
       ⟨[st.messages.getLastD ""], []⟩)

/-- The `route_to_warren` node (anorvis.py lines 229-246): invoke the
Warren agent, record a referral signal when its response mentions
"coordinate" or "backrub", and store the result. -/
def route_to_warren (e : Env) (st : AnorvisState) : Except String AnorvisState × Trace :=
  match warrenRespond e (st.messages.getLastD "") with
  | .error err => (.error err, ⟨[], [st.messages.getLastD ""]⟩)
  | .ok response =>
    if strContains (lowerStr response) "coordinate" || strContains (lowerStr response) "backrub" then
      (.ok { st with coordination_needed := true, suggested_agent := "backrub",
                     financial_analysis := response,
                     messages := st.messages ++ ["Warren response: " ++ response] },
       ⟨[], [st.messages.getLastD ""]⟩)
    else
      (.ok { st with financial_analysis := response,
                     messages := st.messages ++ ["Warren response: " ++ response] },
       ⟨[], [st.messages.getLastD ""]⟩)

/-- The follow-up prompt the coordinator passes to Warren, embedding the
first 1000 characters of the research response (anorvis.py lines
272-284). -/
def finalAnalysisPromptStr (original_query research_response : String) : String :=
  "\nYou are a financial advisor. The user is asking: " ++ original_query ++
  "\n\nHere is the research that has been done: " ++ strTake research_response 1000 ++
  "\n\nBased on this research, provide a final, confident answer with:\n1. Specific stock recommendations based on the research\n2. Clear investment advice and reasoning\n3. Risk considerations\n4. Actionable next steps\n\nBe confident, specific, and give concrete advice. The user is waiting for your expert financial opinion.\n"

/-- The `coordinate_agents` node (anorvis.py lines 248-307): invoke
Backrub with the original query; when its response mentions "warren" or
"financial", invoke Warren with the original query (the result is only
logged and discarded) and then again with the follow-up prompt, whose
response is recorded as `financial_analysis`; otherwise leave
`financial_analysis` empty. -/
def coordinate_agents (e : Env) (st : AnorvisState) : Except String AnorvisState × Trace :=
  match backrubRespond e st.original_query with
  | .error err => (.error err, ⟨[st.original_query], []⟩)
  | .ok research =>
    if strContains (lowerStr research) "warren" || strContains (lowerStr research) "financial" then
      match warrenRespond e st.original_query with
      | .error err => (.error err, ⟨[st.original_query], [st.original_query]⟩)
      | .ok _financialResponse =>
        match warrenRespond e (finalAnalysisPromptStr st.original_query research) with
        | .error err =>
          (.error err, ⟨[st.original_query],
                        [st.original_query, finalAnalysisPromptStr st.original_query research]⟩)
        | .ok finalAnalysis =>
          (.ok { st with research_results := research,
                         financial_analysis := finalAnalysis,
                         messages := st.messages ++ ["Full coordination completed"] },
           ⟨[st.original_query],
            [st.original_query, finalAnalysisPromptStr st.original_query research]⟩)
    else
      (.ok { st with research_results := research,
                     financial_analysis := "",
                     messages := st.messages ++ ["Research-only coordination completed"] },
       ⟨[st.original_query], []⟩)

/-- The `handle_general` node (anorvis.py lines 309-327): one direct LLM
answer stored as `final_response`. -/
def handle_general (e : Env) (st : AnorvisState) : Except String AnorvisState × Trace :=
  match e.llmA [("system", e.sysPromptA), ("human", st.messages.getLastD "")] with
  | .error err => (.error err, Trace.empty)
  | .ok response =>
    (.ok { st with final_response := response, messages := st.messages ++ [response] },
     Trace.empty)

/-- The summarization prompt of the finalizer, embedding the first 1000
characters of the research results and the first 800 characters of the
financial analysis (anorvis.py lines 341-355). -/
def summaryPromptStr (research finance : String) : String :=
  "\nYou are a helpful friend who just completed research and got final financial advice. Create a short, friendly summary for the user.\n\nResearch results: "
  ++ strTake research 1000 ++
  "\nFinal financial advice: " ++ strTake finance 800 ++
  "\n\nWrite a brief, confident response that:\n1. Starts with \"Hey! I looked into that for you...\"\n2. Gives specific stock recommendations based on the research\n3. Provides clear, actionable advice\n4. Ends with a friendly reminder about doing your own research\n\nBe confident and specific - the agents have finished their analysis and are ready to give you a final answer.\nKeep it under 200 words and make it sound like a friend giving you solid advice!\n"

/-- The message list of the finalizer's summarization call (anorvis.py
lines 357-360). -/
def summaryMsgs (research finance : String) : Msgs :=
  [("system", "You are a helpful research assistant."), ("human", summaryPromptStr research finance)]

/-- The research-only coordination format of the finalizer (anorvis.py
lines 370-376): a literal header, the first 500 characters of the
research results, and a literal invitation to request financial
follow-up. -/
def researchCoordFormat (r : String) : String :=
  "\nHey! I found some info for you:\n\n" ++ strTake r 500 ++
  "...\n\nWant me to get some financial advice to go with this research?\n"

/-- The research-only single-route format of the finalizer (anorvis.py
lines 377-382): a literal header and the first 300 characters of the
research results. -/
def researchOnlyFormat (r : String) : String :=
  "\nHey! Here" ++ sq ++ "s what I found:\n\n" ++ strTake r 300 ++ "...\n"

/-- The finance-only format of the finalizer (anorvis.py lines 383-388). -/
def financeOnlyFormat (f : String) : String :=
  "\nHey! Here" ++ sq ++ "s what my financial expert friend had to say:\n\n"
  ++ strTake f 300 ++ "...\n"

/-- The fallback apology of the finalizer (anorvis.py lines 392-395). -/
def apologyText : String :=
  "Sorry, I" ++ sq ++ "m having trouble with that right now. Can you try again?"

/-- The `finalize_response` node (anorvis.py lines 329-397), with its
branches in the source's order: coordinator with both results (LLM
summary returned verbatim), coordinator with research only, any
research, any financial analysis, an already-set `final_response`
(left untouched), else the apology. -/
def finalize_response (e : Env) (st : AnorvisState) : Except String AnorvisState :=
  if st.current_agent == "coordinator" && truthy st.research_results && truthy st.financial_analysis then
    match e.llmA (summaryMsgs st.research_results st.financial_analysis) with
    | .error err => .error err
    | .ok summary => .ok { st with final_response := summary }
  else if st.current_agent == "coordinator" && truthy st.research_results && !truthy st.financial_analysis then
    .ok { st with final_response := researchCoordFormat st.research_results }
  else if truthy st.research_results then
    .ok { st with final_response := researchOnlyFormat st.research_results }
  else if truthy st.financial_analysis then
    .ok { st with final_response := financeOnlyFormat st.financial_analysis }
  else if truthy st.final_response then
    .ok st
  else
    .ok { st with final_response := apologyText }

/-- The conditional-edge dispatch from the classify node (anorvis.py
lines 92-101): the route key selects the handler node. -/
def dispatchRoute (e : Env) (st : AnorvisState) : Except String AnorvisState × Trace :=
  let rk := route_decision st
  if rk = "coordinate" then coordinate_agents e st
  else if rk = "backrub" then route_to_backrub e st
  else if rk = "warren" then route_to_warren e st
  else handle_general e st

/-- One full orchestrated invocation `_anorvis(query)` (anorvis.py lines
62-119) returning the final state: classify, dispatch to the selected
handler, finalize.  A raised generation-capability error short-circuits
the run.  The trace lists the worker invocations made before the run
ended. -/
def runAnorvisFull (e : Env) (query : String) : Except String AnorvisState × Trace :=
  match classify_query e (initialState query) with
  | .error err => (.error err, Trace.empty)
  | .ok st1 =>
    match dispatchRoute e st1 with
    | (.error err, tr) => (.error err, tr)
    | (.ok st2, tr) =>
      match finalize_response e st2 with
      | .error err => (.error err, tr)
      | .ok st3 => (.ok st3, tr)

/-- The text `_anorvis` returns to the caller: the `final_response`
field of the final state (anorvis.py line 119). -/
def runAnorvis (e : Env) (query : String) : Except String String × Trace :=
  match runAnorvisFull e query with
  | (.error err, tr) => (.error err, tr)
  | (.ok st, tr) => (.ok st.final_response, tr)

/-- Projection of a successful run result onto its state (used to state
concrete-run facts; an error run maps to the empty initial state). -/
def stateOf : Except String AnorvisState → AnorvisState
  | .ok st => st
  | .error _ => initialState ""

/-- A generation capability that answers every call with the same text. -/
def constLLM (s : String) : LLM := fun _ => .ok s

/-- The content of the second (human/user) message of a call, used by
concrete capability oracles to tell call sites apart. -/
def sndContent (ms : Msgs) : String := (ms.getD 1 ("", "")).2

/-- The text of a successful capability or worker result (empty on
error); used to name concrete run artifacts. -/
def okStr : Except String String → String
  | .ok s => s
  | .error _ => ""

/-! ### Concrete environments used by witnesses and counterexamples -/

/-- The classification completion used as the concrete instance of C2. -/
def exampleCompletion : String :=
  "Classification: " ++ sq ++ "Coordinate" ++ sq ++ "  "

/-- The concrete environment used as the instance of C2. -/
def envC2 : Env :=
  { llmA := constLLM exampleCompletion,
    sysPromptA := anorvisSystemPromptText, llmB := constLLM "x",
    toolsAvail := false, webCall := .ok "", wikiCall := .ok "",
    llmW := constLLM "x" }

/-- The concrete environment of the C1 coordinate run: the classifier
answers "coordinate" for the query "stocks", the research worker has no
tools and detects financial context, and the finance worker answers
"ok" to every analysis/advice call. -/
def envC1 : Env :=
  { llmA := fun ms => if sndContent ms = "stocks" then .ok "coordinate" else .ok "summary text",
    sysPromptA := anorvisSystemPromptText,
    llmB := constLLM "financial",
    toolsAvail := false, webCall := .ok "", wikiCall := .ok "",
    llmW := constLLM "ok" }

/-- The research result produced by the research worker in the C1 run. -/
def researchC1 : String := okStr (backrubRespond envC1 "stocks")

/-- The concrete environment of the C3 counterexample: the classifier
answers "backrub" for the query "qq", the research worker finds
no tool output and no financial context. -/
def envC3 : Env :=
  { llmA := fun ms => if sndContent ms = "qq" then .ok "backrub" else .ok "unused",
    sysPromptA := anorvisSystemPromptText,
    llmB := constLLM "general",
    toolsAvail := false, webCall := .ok "", wikiCall := .ok "",
    llmW := constLLM "unused" }

/-- The research result produced in the C3 counterexample run. -/
def researchC3 : String := (stateOf (runAnorvisFull envC3 "qq").1).research_results

/-- A 1300-character research result, for the concrete instance of C3. -/
def longResearch : String := String.mk (List.replicate 1300 (Char.ofNat 114))

/-- A finalization state of the coordinator route carrying only the
1300-character research result. -/
def stC3 : AnorvisState :=
  { messages := ["q"], current_agent := "coordinator", coordination_needed := false,
    suggested_agent := "", research_results := longResearch, financial_analysis := "",
    final_response := "", original_query := "q" }

/-- The concrete environment of the C4 coordinate run: classification
"coordinate" for the query "news", no tools, no financial context, so
the research result carries no peer trigger token. -/
def envC4 : Env :=
  { llmA := fun ms => if sndContent ms = "news" then .ok "coordinate" else .ok "unused",
    sysPromptA := anorvisSystemPromptText,
    llmB := constLLM "general",
    toolsAvail := false, webCall := .ok "", wikiCall := .ok "",
    llmW := constLLM "unused" }

/-- The research result produced by the research worker in the C4 run. -/
def researchC4 : String := okStr (backrubRespond envC4 "news")

/-- The concrete environment of the C6 general run: a short sentinel
system prompt distinguishes the direct-answer call from the
classification call. -/
def envC6 : Env :=
  { llmA := fun ms => if (ms.getD 0 ("", "")).2 = "sys" then .ok "direct answer" else .ok "general",
    sysPromptA := "sys",
    llmB := constLLM "x",
    toolsAvail := false, webCall := .ok "", wikiCall := .ok "",
    llmW := constLLM "x" }

/-- The concrete environment of the C8 counterexample: the research
worker's capability answers every call with the same direct answer
text, and no lookup tool is available. -/
def envC8 : Env :=
  { llmA := constLLM "x", sysPromptA := anorvisSystemPromptText,
    llmB := constLLM "A direct answer to the query",
    toolsAvail := false, webCall := .ok "", wikiCall := .ok "",
    llmW := constLLM "x" }

/-- The concrete environment of the C9 instance: tools are configured
and both tool calls raise. -/
def envC9 : Env :=
  { llmA := constLLM "x", sysPromptA := anorvisSystemPromptText,
    llmB := constLLM "general",
    toolsAvail := true, webCall := .raised, wikiCall := .raised,
    llmW := constLLM "x" }

/-- The concrete environment of the C10 research-route run: the web
search returns text mentioning the finance worker by name, so the
single-route referral signal fires. -/
def envC10a : Env :=
  { llmA := fun ms => if sndContent ms = "topic" then .ok "backrub" else .ok "unused",
    sysPromptA := anorvisSystemPromptText,
    llmB := constLLM "general",
    toolsAvail := true, webCall := .ok "Warren Buffett indicators", wikiCall := .raised,
    llmW := constLLM "unused" }

/-- The research result of the C10 research-route run. -/
def researchC10 : String := okStr (backrubRespond envC10a "topic")

/-- The concrete environment of the C10 finance-route run: the finance
worker's analysis asks for research, so it returns the coordination
suggestion (which contains the token "coordinate"). -/
def envC10b : Env :=
  { llmA := fun ms => if sndContent ms = "money" then .ok "warren" else .ok "unused",
    sysPromptA := anorvisSystemPromptText,
    llmB := constLLM "unused",
    toolsAvail := false, webCall := .ok "", wikiCall := .ok "",
    llmW := constLLM "research" }

/-- The finance result of the C10 finance-route run. -/
def financeC10 : String := okStr (warrenRespond envC10b "money")

/-! ### Helper lemmas -/

/-- Appending a nonempty string yields a nonempty string. -/
lemma strAppend_ne_empty (a b : String) (hb : b.data ≠ []) : a ++ b ≠ "" := by
  intro h
  have hd : a.data ++ b.data = ([] : List Char) := congrArg String.data h
  exact hb (List.append_eq_nil.mp hd).2

/-- Every response of the Backrub worker is nonempty: both referral
suffixes are nonempty literals. -/
lemma backrubRespond_ok_ne_empty (e : Env) (q r : String)
    (h : backrubRespond e q = .ok r) : r ≠ "" := by
  unfold backrubRespond at h
  cases hllm : e.llmB (backrubAnalysisMsgs q) with
  | error err => rw [hllm] at h; cases h
  | ok analysisRaw =>
    rw [hllm] at h
    simp only [Except.ok.injEq] at h
    split at h
    · exact h ▸ strAppend_ne_empty _ _ (by decide)
    · exact h ▸ strAppend_ne_empty _ _ (by decide)

/-- The agent token assigned by classification is one of the four
handler names. -/
lemma agentFor_cases (c : String) :
    agentFor c = "coordinator" ∨ agentFor c = "backrub" ∨
      agentFor c = "warren" ∨ agentFor c = "general" := by
  unfold agentFor
  split
  · exact Or.inl rfl
  split
  · exact Or.inr (Or.inl rfl)
  split
  · exact Or.inr (Or.inr (Or.inl rfl))
  · exact Or.inr (Or.inr (Or.inr rfl))

/-- The route key chosen by `route_decision` is always one of the four
keys wired as conditional edges. -/
lemma route_decision_cases (st : AnorvisState) :
    route_decision st = "backrub" ∨ route_decision st = "warren" ∨
      route_decision st = "coordinate" ∨ route_decision st = "general" := by
  unfold route_decision
  split
  · exact Or.inr (Or.inr (Or.inl rfl))
  split
  · exact Or.inl rfl
  split
  · exact Or.inr (Or.inl rfl)
  · exact Or.inr (Or.inr (Or.inr rfl))

/-- A successful classification step sets `current_agent` from the
normalized completion and changes nothing else. -/
lemma classify_query_ok (e : Env) (q raw : String)
    (h : e.llmA (classifyMsgs q) = .ok raw) :
    classify_query e (initialState q)
      = .ok { initialState q with current_agent := agentFor (normalizeClassification raw) } := by
  unfold classify_query
  rw [show (initialState q).messages.getLastD "" = q from rfl, h]

/-- A successful direct-answer step stores the answer as the final
response and appends it to the log. -/
lemma handle_general_ok (e : Env) (st : AnorvisState) (ans : String)
    (h : e.llmA [("system", e.sysPromptA), ("human", st.messages.getLastD "")] = .ok ans) :
    handle_general e st
      = (.ok { st with final_response := ans, messages := st.messages ++ [ans] }, Trace.empty) := by
  unfold handle_general
  simp only [h]

/-- With no worker output, a nonempty already-set final response passes
through the finalizer untouched. -/
lemma finalize_passthrough (e : Env) (st : AnorvisState)
    (hr : st.research_results = "") (hf : st.financial_analysis = "")
    (hfr : st.final_response ≠ "") :
    finalize_response e st = .ok st := by
  unfold finalize_response
  rw [hr, hf]
  simp [truthy, hfr]

/-- In the coordinator research-only case the finalizer formats the
500-character research prefix with the invitation suffix. -/
lemma finalize_coord_research_only (e : Env) (st : AnorvisState)
    (hagent : st.current_agent = "coordinator")
    (hr : st.research_results ≠ "")
    (hf : st.financial_analysis = "") :
    finalize_response e st
      = .ok { st with final_response := researchCoordFormat st.research_results } := by
  unfold finalize_response
  rw [hagent, hf]
  simp [truthy, hr]

/-- In the coordinator both-results case the finalizer returns the
summarization capability's output verbatim. -/
lemma finalize_both (e : Env) (st : AnorvisState) (out : String)
    (hagent : st.current_agent = "coordinator")
    (hr : st.research_results ≠ "")
    (hf : st.financial_analysis ≠ "")
    (hcap : e.llmA (summaryMsgs st.research_results st.financial_analysis) = .ok out) :
    finalize_response e st = .ok { st with final_response := out } := by
  unfold finalize_response
  rw [hagent]
  simp [truthy, hr, hf, hcap]

/-- On the single research route the finalizer uses the 300-character
research format. -/
lemma finalize_research_single (e : Env) (st : AnorvisState)
    (hagent : st.current_agent = "backrub")
    (hr : st.research_results ≠ "") :
    finalize_response e st
      = .ok { st with final_response := researchOnlyFormat st.research_results } := by
  unfold finalize_response
  rw [hagent]
  simp [truthy, hr]

/-- On the single finance route the finalizer uses the 300-character
finance format. -/
lemma finalize_finance_single (e : Env) (st : AnorvisState)
    (hagent : st.current_agent = "warren")
    (hr : st.research_results = "")
    (hf : st.financial_analysis ≠ "") :
    finalize_response e st
      = .ok { st with final_response := financeOnlyFormat st.financial_analysis } := by
  unfold finalize_response
  rw [hagent, hr]
  simp [truthy, hf]

/-- A successful research-route step records the response, fires the
referral flags exactly when the response mentions "coordinate" or
"warren", and traces one Backrub invocation. -/
lemma route_to_backrub_ok (e : Env) (st : AnorvisState) (research : String)
    (h : backrubRespond e (st.messages.getLastD "") = .ok research) :
    route_to_backrub e st
      = (.ok { st with
                coordination_needed :=
                  if strContains (lowerStr research) "coordinate" || strContains (lowerStr research) "warren"
                  then true else st.coordination_needed,
                suggested_agent :=
                  if strContains (lowerStr research) "coordinate" || strContains (lowerStr research) "warren"
                  then "warren" else st.suggested_agent,
                research_results := research,
                messages := st.messages ++ ["Backrub response: " ++ research] },
         ⟨[st.messages.getLastD ""], []⟩) := by
  unfold route_to_backrub
  simp only [h]
  by_cases htr : (strContains (lowerStr research) "coordinate" || strContains (lowerStr research) "warren") = true
  · simp [htr]
  · simp only [Bool.not_eq_true] at htr
    simp [htr]

/-- A successful finance-route step records the response, fires the
referral flags exactly when the response mentions "coordinate" or
"backrub", and traces one Warren invocation. -/
lemma route_to_warren_ok (e : Env) (st : AnorvisState) (fin : String)
    (h : warrenRespond e (st.messages.getLastD "") = .ok fin) :
    route_to_warren e st
      = (.ok { st with
                coordination_needed :=
                  if strContains (lowerStr fin) "coordinate" || strContains (lowerStr fin) "backrub"
                  then true else st.coordination_needed,
                suggested_agent :=
                  if strContains (lowerStr fin) "coordinate" || strContains (lowerStr fin) "backrub"
                  then "backrub" else st.suggested_agent,
                financial_analysis := fin,
                messages := st.messages ++ ["Warren response: " ++ fin] },
         ⟨[], [st.messages.getLastD ""]⟩) := by
  unfold route_to_warren
  simp only [h]
  by_cases htr : (strContains (lowerStr fin) "coordinate" || strContains (lowerStr fin) "backrub") = true
  · simp [htr]
  · simp only [Bool.not_eq_true] at htr
    simp [htr]

/-- A coordinate step whose research response carries a peer trigger
token invokes Warren twice (first with the raw original query, whose
response is discarded, then with the follow-up prompt) and records the
follow-up response. -/
lemma coordinate_agents_trigger (e : Env) (st : AnorvisState) (research w1 w2 : String)
    (hres : backrubRespond e st.original_query = .ok research)
    (htrig : (strContains (lowerStr research) "warren" || strContains (lowerStr research) "financial") = true)
    (hw1 : warrenRespond e st.original_query = .ok w1)
    (hw2 : warrenRespond e (finalAnalysisPromptStr st.original_query research) = .ok w2) :
    coordinate_agents e st
      = (.ok { st with research_results := research, financial_analysis := w2,
                       messages := st.messages ++ ["Full coordination completed"] },
         ⟨[st.original_query], [st.original_query, finalAnalysisPromptStr st.original_query research]⟩) := by
  unfold coordinate_agents
  simp [hres, htrig, hw1, hw2]

/-- A coordinate step whose research response carries no peer trigger
token never invokes Warren and leaves `financial_analysis` empty. -/
lemma coordinate_agents_no_trigger (e : Env) (st : AnorvisState) (research : String)
    (hres : backrubRespond e st.original_query = .ok research)
    (htrig : (strContains (lowerStr research) "warren" || strContains (lowerStr research) "financial") = false) :
    coordinate_agents e st
      = (.ok { st with research_results := research, financial_analysis := "",
                       messages := st.messages ++ ["Research-only coordination completed"] },
         ⟨[st.original_query], []⟩) := by
  unfold coordinate_agents
  simp [hres, htrig]

/-- A successful coordinate step never changes `current_agent`. -/
lemma coordinate_agents_ok_agent (e : Env) (st st2 : AnorvisState) (tr : Trace)
    (h : coordinate_agents e st = (.ok st2, tr)) :
    st2.current_agent = st.current_agent := by
  unfold coordinate_agents at h
  split at h
  · simp at h
  · split at h
    · split at h
      · simp at h
      · split at h
        · simp at h
        · simp only [Prod.mk.injEq, Except.ok.injEq] at h
          rw [← h.1]
    · simp only [Prod.mk.injEq, Except.ok.injEq] at h
      rw [← h.1]

/-- A successful research-route step never changes
`financial_analysis`, `final_response` or `current_agent`. -/
lemma route_to_backrub_ok_fields (e : Env) (st st2 : AnorvisState) (tr : Trace)
    (h : route_to_backrub e st = (.ok st2, tr)) :
    st2.financial_analysis = st.financial_analysis ∧
    st2.final_response = st.final_response ∧
    st2.current_agent = st.current_agent := by
  unfold route_to_backrub at h
  split at h
  · simp at h
  · split at h <;>
    · simp only [Prod.mk.injEq, Except.ok.injEq] at h
      rw [← h.1]
      exact ⟨rfl, rfl, rfl⟩

/-- A successful finance-route step never changes `research_results`,
`final_response` or `current_agent`. -/
lemma route_to_warren_ok_fields (e : Env) (st st2 : AnorvisState) (tr : Trace)
    (h : route_to_warren e st = (.ok st2, tr)) :
    st2.research_results = st.research_results ∧
    st2.final_response = st.final_response ∧
    st2.current_agent = st.current_agent := by
  unfold route_to_warren at h
  split at h
  · simp at h
  · split at h <;>
    · simp only [Prod.mk.injEq, Except.ok.injEq] at h
      rw [← h.1]
      exact ⟨rfl, rfl, rfl⟩

/-- A successful direct-answer step never changes `research_results`,
`financial_analysis` or `current_agent`. -/
lemma handle_general_ok_fields (e : Env) (st st2 : AnorvisState) (tr : Trace)
    (h : handle_general e st = (.ok st2, tr)) :
    st2.research_results = st.research_results ∧
    st2.financial_analysis = st.financial_analysis ∧
    st2.current_agent = st.current_agent := by
  unfold handle_general at h
  split at h
  · simp at h
  · simp only [Prod.mk.injEq, Except.ok.injEq] at h
    rw [← h.1]
    exact ⟨rfl, rfl, rfl⟩

/-- The dispatch table: the conditional edge selects the handler node
matching the classified agent. -/
lemma dispatch_on_agent (e : Env) (st : AnorvisState) :
    (st.current_agent = "coordinator" → dispatchRoute e st = coordinate_agents e st) ∧
    (st.current_agent = "backrub" → dispatchRoute e st = route_to_backrub e st) ∧
    (st.current_agent = "warren" → dispatchRoute e st = route_to_warren e st) ∧
    (st.current_agent = "general" → dispatchRoute e st = handle_general e st) := by
  refine ⟨?_, ?_, ?_, ?_⟩ <;> intro h <;> unfold dispatchRoute route_decision <;> rw [h] <;> rfl

/-- Composing a successful classify, dispatch and finalize step gives
the full-run result. -/
lemma run_compose_ok (e : Env) (q : String) (st1 st2 st3 : AnorvisState) (tr : Trace)
    (hc : classify_query e (initialState q) = .ok st1)
    (hd : dispatchRoute e st1 = (.ok st2, tr))
    (hf : finalize_response e st2 = .ok st3) :
    runAnorvisFull e q = (.ok st3, tr) := by
  unfold runAnorvisFull
  rw [hc]
  simp only [hd, hf]

/-- After a successful classify and dispatch step, the run's trace is
the dispatch trace whatever the finalizer does. -/
lemma run_compose_trace (e : Env) (q : String) (st1 st2 : AnorvisState) (tr : Trace)
    (hc : classify_query e (initialState q) = .ok st1)
    (hd : dispatchRoute e st1 = (.ok st2, tr)) :
    (runAnorvisFull e q).2 = tr := by
  unfold runAnorvisFull
  rw [hc]
  simp only [hd]
  split <;> rfl

/-- The finalizer only writes `final_response`: every other state field
of a successful finalization is unchanged. -/
lemma finalize_response_fields (e : Env) (s s2 : AnorvisState)
    (h : finalize_response e s = .ok s2) :
    s2.current_agent = s.current_agent ∧
    s2.research_results = s.research_results ∧
    s2.financial_analysis = s.financial_analysis := by
  unfold finalize_response at h
  split at h
  · cases hllm : e.llmA (summaryMsgs s.research_results s.financial_analysis) with
    | error err => rw [hllm] at h; cases h
    | ok summary => rw [hllm] at h; cases h; exact ⟨rfl, rfl, rfl⟩
  split at h
  · cases h; exact ⟨rfl, rfl, rfl⟩
  split at h
  · cases h; exact ⟨rfl, rfl, rfl⟩
  split at h
  · cases h; exact ⟨rfl, rfl, rfl⟩
  split at h
  · cases h; exact ⟨rfl, rfl, rfl⟩
  · cases h; exact ⟨rfl, rfl, rfl⟩

/-! ### C7: a classifier capability failure aborts the invocation -/

/-- C7: if the generation-capability call made during classification
raises, the error is not caught locally: the invocation aborts with
that error, no worker is invoked (empty trace), and no answer is
produced. -/
theorem C7_classifier_failure_aborts (e : Env) (q err : String)
    (hfail : e.llmA (classifyMsgs q) = .error err) :
    runAnorvis e q = (.error err, Trace.empty) := by
  unfold runAnorvis runAnorvisFull classify_query
  rw [show (initialState q).messages.getLastD "" = q from rfl, hfail]

/-- A concrete instance of C7: a capability that raises on every call
makes the whole invocation fail with that error and an empty trace. -/
theorem C7_witness :
    runAnorvis
      { llmA := fun _ => .error "provider down", sysPromptA := anorvisSystemPromptText,
        llmB := constLLM "x", toolsAvail := false, webCall := .ok "", wikiCall := .ok "",
        llmW := constLLM "x" } "hello"
      = (.error "provider down", Trace.empty) :=
  C7_classifier_failure_aborts _ "hello" "provider down" rfl

/-! ### C2: classification always lands in the closed route-label set -/

/-- C2: for every query and raw completion, the classifier assigns
`current_agent` by normalizing the completion, and the resulting route
key is always one of backrub/warren/coordinate/general; the completion
"Classification: 'Coordinate'  " normalizes to `coordinate`, and tokens
with no exact match (including the spec alias "research" and the empty
string) map to `general`. -/
theorem C2_classification_closed_set :
    (∀ (e : Env) (q raw : String) (st : AnorvisState),
        e.llmA (classifyMsgs q) = .ok raw →
        classify_query e (initialState q) = .ok st →
        st.current_agent = agentFor (normalizeClassification raw) ∧
          (route_decision st = "backrub" ∨ route_decision st = "warren" ∨
           route_decision st = "coordinate" ∨ route_decision st = "general")) ∧
    normalizeClassification ("Classification: " ++ sq ++ "Coordinate" ++ sq ++ "  ") = "coordinate" ∧
    agentFor "coordinate" = "coordinator" ∧
    agentFor "research" = "general" ∧
    agentFor "" = "general" := by
  refine ⟨?_, by decide, by decide, by decide, by decide⟩
  intro e q raw st hllm hcl
  rw [classify_query_ok e q raw hllm] at hcl
  cases hcl
  exact ⟨rfl, route_decision_cases _⟩

/-- A concrete instance of C2: with a capability answering
"Classification: 'Coordinate'  ", classification sets `current_agent`
by normalizing that completion (to `coordinate`, hence `coordinator`). -/
theorem C2_witness :
    (stateOf (classify_query envC2 (initialState "hi"))).current_agent
      = agentFor (normalizeClassification exampleCompletion) :=
  (C2_classification_closed_set.1 envC2 "hi" exampleCompletion
    (stateOf (classify_query envC2 (initialState "hi"))) rfl rfl).1

/-! ### C3: the research-only 500-character format is exclusive to the
coordinator route -/

/-- C3 counterexample: a single-route research run ends with only
`research_results` populated (`financial_analysis` empty, no general
answer was produced since the route was `backrub`), yet the final
response is the 300-character single-route format, not the
500-character-prefix-plus-invitation format the claim asserts. -/
theorem C3_counterexample :
    researchC3 ≠ "" ∧
    (stateOf (runAnorvisFull envC3 "qq").1).financial_analysis = "" ∧
    (stateOf (runAnorvisFull envC3 "qq").1).current_agent = "backrub" ∧
    (stateOf (runAnorvisFull envC3 "qq").1).final_response = researchOnlyFormat researchC3 ∧
    researchOnlyFormat researchC3 ≠ researchCoordFormat researchC3 := by
  decide

/-- C3 amended: whenever at finalization the current agent is the
coordinator and only `research_results` is populated, the final
response is the literal header, the 500-character prefix of
`research_results`, and the literal invitation to request financial
follow-up. -/
theorem C3_research_only_coordinator_format (e : Env) (st : AnorvisState)
    (hagent : st.current_agent = "coordinator")
    (hr : st.research_results ≠ "")
    (hf : st.financial_analysis = "") :
    finalize_response e st
      = .ok { st with final_response := researchCoordFormat st.research_results } :=
  finalize_coord_research_only e st hagent hr hf

/-- A concrete instance of the amended C3: a 1300-character research
result in the coordinator research-only branch yields exactly the
header, its 500-character prefix, and the literal invitation suffix. -/
theorem C3_witness :
    finalize_response envC3 stC3
      = .ok { stC3 with final_response := researchCoordFormat longResearch } :=
  C3_research_only_coordinator_format envC3 stC3 rfl (by decide) rfl

/-! ### C6: the general-path answer is never overwritten -/

/-- C6: on the general path the nonempty direct answer passes through
finalization unchanged, and the finalizer consults the already-set
`final_response` only when no worker output exists (its result is
unchanged by blanking `final_response` whenever some worker result is
populated). -/
theorem C6_general_answer_preserved :
    (∀ (e : Env) (q raw ans : String),
        e.llmA (classifyMsgs q) = .ok raw →
        agentFor (normalizeClassification raw) = "general" →
        e.llmA [("system", e.sysPromptA), ("human", q)] = .ok ans →
        ans ≠ "" →
        runAnorvis e q = (.ok ans, Trace.empty)) ∧
    (∀ (e : Env) (st : AnorvisState),
        (st.research_results ≠ "" ∨ st.financial_analysis ≠ "") →
        finalize_response e st = finalize_response e { st with final_response := "" }) := by
  constructor
  · intro e q raw ans h1 hgen hans hne
    have hc := classify_query_ok e q raw h1
    rw [hgen] at hc
    have hd : dispatchRoute e { initialState q with current_agent := "general" }
        = (.ok { { initialState q with current_agent := "general" } with
                   final_response := ans, messages := [q] ++ [ans] }, Trace.empty) :=
      handle_general_ok e _ ans hans
    have hfin : finalize_response e
        { { initialState q with current_agent := "general" } with
            final_response := ans, messages := [q] ++ [ans] }
        = .ok { { initialState q with current_agent := "general" } with
                  final_response := ans, messages := [q] ++ [ans] } :=
      finalize_passthrough e _ rfl rfl hne
    unfold runAnorvis runAnorvisFull
    rw [hc]
    simp only [hd, hfin]
  · intro e st h
    by_cases hA : st.current_agent = "coordinator" <;>
      by_cases hR : st.research_results = "" <;>
        by_cases hF : st.financial_analysis = ""
    all_goals try exact h.elim (fun x => (x hR).elim) (fun x => (x hF).elim)
    all_goals simp [finalize_response, truthy, hA, hR, hF]

/-- A concrete instance of C6: the classifier yields the general route
and the nonempty direct answer is returned unchanged with no worker
invoked. -/
theorem C6_witness :
    runAnorvis envC6 "hey" = (.ok "direct answer", Trace.empty) :=
  C6_general_answer_preserved.1 envC6 "hey" "general" "direct answer"
    rfl (by decide) rfl (by decide)

/-! ### C1: coordinate-path invocation of the Finance worker -/

/-- C1 counterexample: in a concrete coordinate run whose research
result contains a peer trigger token, the Finance worker IS invoked
with the raw original query "stocks" (its first of two invocations),
contradicting the claim that it is invoked with the follow-up prompt
and not with the raw original query. -/
theorem C1_counterexample :
    (stateOf (runAnorvisFull envC1 "stocks").1).research_results = researchC1 ∧
    (strContains (lowerStr researchC1) "warren" || strContains (lowerStr researchC1) "financial") = true ∧
    (runAnorvisFull envC1 "stocks").2.warrenCalls.contains "stocks" = true := by
  decide

/-- C1 amended: on the coordinate path with a peer trigger token in the
research result, the Finance worker is invoked exactly twice — first
with the raw original query, whose response is discarded, then with
the follow-up prompt embedding the first 1000 characters of the
research result — and `financial_analysis` records the follow-up
call's response. -/
theorem C1_coordinate_finance_followup (e : Env) (q raw research w1 w2 : String)
    (hc : e.llmA (classifyMsgs q) = .ok raw)
    (hcoord : agentFor (normalizeClassification raw) = "coordinator")
    (hres : backrubRespond e q = .ok research)
    (htrig : (strContains (lowerStr research) "warren" || strContains (lowerStr research) "financial") = true)
    (hw1 : warrenRespond e q = .ok w1)
    (hw2 : warrenRespond e (finalAnalysisPromptStr q research) = .ok w2) :
    (runAnorvisFull e q).2.warrenCalls = [q, finalAnalysisPromptStr q research] ∧
    (coordinate_agents e { initialState q with current_agent := "coordinator" }).1.map
        AnorvisState.research_results = .ok research ∧
    (coordinate_agents e { initialState q with current_agent := "coordinator" }).1.map
        AnorvisState.financial_analysis = .ok w2 := by
  have hc' := classify_query_ok e q raw hc
  rw [hcoord] at hc'
  have hco := coordinate_agents_trigger e { initialState q with current_agent := "coordinator" }
    research w1 w2 hres htrig hw1 hw2
  have hd2 := ((dispatch_on_agent e { initialState q with current_agent := "coordinator" }).1 rfl).trans hco
  refine ⟨?_, ?_, ?_⟩
  · have htr := run_compose_trace e q _ _ _ hc' hd2
    rw [htr]
    rfl
  · rw [hco]
    rfl
  · rw [hco]
    rfl

/-- A concrete instance of the amended C1: the coordinate run on
"stocks" invokes the Finance worker with the raw query and then the
follow-up prompt, and records the follow-up response "ok". -/
theorem C1_witness :
    (runAnorvisFull envC1 "stocks").2.warrenCalls
        = ["stocks", finalAnalysisPromptStr "stocks" researchC1] ∧
    (coordinate_agents envC1 { initialState "stocks" with current_agent := "coordinator" }).1.map
        AnorvisState.research_results = .ok researchC1 ∧
    (coordinate_agents envC1 { initialState "stocks" with current_agent := "coordinator" }).1.map
        AnorvisState.financial_analysis = .ok "ok" :=
  C1_coordinate_finance_followup envC1 "stocks" "coordinate" researchC1 "ok" "ok"
    rfl (by decide) rfl (by decide) rfl rfl

/-! ### C4: coordinate path without a peer trigger token -/

/-- C4: on the coordinate path, when the research result contains no
peer trigger token, the Finance worker is never invoked,
`financial_analysis` stays empty, and finalization uses the
research-only branch (500-character prefix plus invitation). -/
theorem C4_no_trigger_research_only (e : Env) (q raw research : String)
    (hc : e.llmA (classifyMsgs q) = .ok raw)
    (hcoord : agentFor (normalizeClassification raw) = "coordinator")
    (hres : backrubRespond e q = .ok research)
    (htrig : (strContains (lowerStr research) "warren" || strContains (lowerStr research) "financial") = false) :
    (runAnorvisFull e q).2.warrenCalls = [] ∧
    (runAnorvisFull e q).1.map AnorvisState.financial_analysis = .ok "" ∧
    (runAnorvisFull e q).1.map AnorvisState.final_response = .ok (researchCoordFormat research) := by
  have hc' := classify_query_ok e q raw hc
  rw [hcoord] at hc'
  have hco := coordinate_agents_no_trigger e { initialState q with current_agent := "coordinator" }
    research hres htrig
  have hd2 := ((dispatch_on_agent e { initialState q with current_agent := "coordinator" }).1 rfl).trans hco
  have hne := backrubRespond_ok_ne_empty e q research hres
  have hall := run_compose_ok e q _ _ _ _ hc' hd2 (finalize_coord_research_only e _ rfl hne rfl)
  refine ⟨?_, ?_, ?_⟩ <;> rw [hall] <;> rfl

/-- A concrete instance of C4: the coordinate run on "news" has no
trigger token in the research result, never invokes the Finance
worker, and finalizes with the research-only coordination format. -/
theorem C4_witness :
    (runAnorvisFull envC4 "news").2.warrenCalls = [] ∧
    (runAnorvisFull envC4 "news").1.map AnorvisState.financial_analysis = .ok "" ∧
    (runAnorvisFull envC4 "news").1.map AnorvisState.final_response
        = .ok (researchCoordFormat researchC4) :=
  C4_no_trigger_research_only envC4 "news" "coordinate" researchC4
    rfl (by decide) rfl (by decide)

/-! ### C5: both worker results populated at finalization -/

/-- C5: whenever a full run finishes with both `research_results` and
`financial_analysis` populated, the final response is the verbatim
output of the generation capability on the summarization prompt built
from the 1000-character research prefix and the 800-character finance
prefix. -/
theorem C5_both_results_summary_verbatim (e : Env) (q : String) (st : AnorvisState) (out : String)
    (hrun : (runAnorvisFull e q).1 = .ok st)
    (hr : st.research_results ≠ "")
    (hf : st.financial_analysis ≠ "")
    (hcap : e.llmA (summaryMsgs st.research_results st.financial_analysis) = .ok out) :
    st.final_response = out := by
  cases hcq : classify_query e (initialState q) with
  | error err =>
    unfold runAnorvisFull at hrun
    rw [hcq] at hrun
    simp at hrun
  | ok st1 =>
    unfold runAnorvisFull at hrun
    rw [hcq] at hrun
    simp only [] at hrun
    cases hllm : e.llmA (classifyMsgs q) with
    | error err =>
      have hcerr : classify_query e (initialState q) = .error err := by
        unfold classify_query
        rw [show (initialState q).messages.getLastD "" = q from rfl, hllm]
      rw [hcerr] at hcq
      cases hcq
    | ok raw =>
      have hst1 : st1 = { initialState q with current_agent := agentFor (normalizeClassification raw) } := by
        have h2 := (classify_query_ok e q raw hllm).symm.trans hcq
        simp only [Except.ok.injEq] at h2
        exact h2.symm
      have hag1 : st1.current_agent = agentFor (normalizeClassification raw) := by
        rw [hst1]
      have hre1 : st1.research_results = "" := by
        rw [hst1]; rfl
      have hfi1 : st1.financial_analysis = "" := by
        rw [hst1]; rfl
      rcases agentFor_cases (normalizeClassification raw) with hag | hag | hag | hag
      · -- coordinator: the only case in which both results can be populated
        rw [(dispatch_on_agent e st1).1 (hag1.trans hag)] at hrun
        split at hrun
        · simp at hrun
        · rename_i st2 tr heq
          split at hrun
          · simp at hrun
          · rename_i st3 heq2
            simp only at hrun
            cases hrun
            have hagent2 : st2.current_agent = "coordinator" :=
              (coordinate_agents_ok_agent e st1 st2 tr heq).trans (hag1.trans hag)
            have hfld := finalize_response_fields e st2 st heq2
            have hr2 : st2.research_results ≠ "" := by rw [← hfld.2.1]; exact hr
            have hf2 : st2.financial_analysis ≠ "" := by rw [← hfld.2.2]; exact hf
            have hcap2 : e.llmA (summaryMsgs st2.research_results st2.financial_analysis) = .ok out := by
              rw [← hfld.2.1, ← hfld.2.2]
              exact hcap
            have hok := heq2.symm.trans (finalize_both e st2 out hagent2 hr2 hf2 hcap2)
            simp only [Except.ok.injEq] at hok
            rw [hok]
      · -- backrub route: financial_analysis stays empty, contradiction
        rw [(dispatch_on_agent e st1).2.1 (hag1.trans hag)] at hrun
        split at hrun
        · simp at hrun
        · rename_i st2 tr heq
          split at hrun
          · simp at hrun
          · rename_i st3 heq2
            simp only at hrun
            cases hrun
            have hfld := finalize_response_fields e st2 st heq2
            have h2 := (route_to_backrub_ok_fields e st1 st2 tr heq).1
            exact absurd (hfld.2.2.trans (h2.trans hfi1)) hf
      · -- warren route: research_results stays empty, contradiction
        rw [(dispatch_on_agent e st1).2.2.1 (hag1.trans hag)] at hrun
        split at hrun
        · simp at hrun
        · rename_i st2 tr heq
          split at hrun
          · simp at hrun
          · rename_i st3 heq2
            simp only at hrun
            cases hrun
            have hfld := finalize_response_fields e st2 st heq2
            have h2 := (route_to_warren_ok_fields e st1 st2 tr heq).1
            exact absurd (hfld.2.1.trans (h2.trans hre1)) hr
      · -- general route: no worker output at all, contradiction
        rw [(dispatch_on_agent e st1).2.2.2 (hag1.trans hag)] at hrun
        split at hrun
        · simp at hrun
        · rename_i st2 tr heq
          split at hrun
          · simp at hrun
          · rename_i st3 heq2
            simp only at hrun
            cases hrun
            have hfld := finalize_response_fields e st2 st heq2
            have h2 := (handle_general_ok_fields e st1 st2 tr heq).1
            exact absurd (hfld.2.1.trans (h2.trans hre1)) hr

/-- A concrete instance of C5: the coordinate run on "stocks" ends
with both results populated and the final response is exactly the
capability's summary output. -/
theorem C5_witness :
    (stateOf (runAnorvisFull envC1 "stocks").1).final_response = "summary text" :=
  C5_both_results_summary_verbatim envC1 "stocks"
    (stateOf (runAnorvisFull envC1 "stocks").1) "summary text"
    rfl (by decide) (by decide) rfl

/-! ### C8: the research worker's no-tool fallback -/

/-- C8 counterexample: with a generation capability that answers every
call with the same direct-answer text and no lookup tool available,
the Research worker's response is the fixed apology message embedding
the query; it neither equals nor even contains the capability's
answer, so it is not a direct generation-capability answer. -/
theorem C8_counterexample :
    backrubContributions envC8 = [] ∧
    backrubRespond envC8 "test" = .ok (noToolText "test" ++ generalTail) ∧
    noToolText "test" ++ generalTail ≠ "A direct answer to the query" ∧
    strContains (noToolText "test" ++ generalTail) "A direct answer" = false := by
  refine ⟨rfl, rfl, by decide, by decide⟩

/-- C8 amended: when no lookup tool produced output, the Research
worker returns the fixed apology message embedding the query, followed
by the referral suffix chosen from its analysis answer. -/
theorem C8_no_tool_fixed_fallback (e : Env) (q a : String)
    (hllm : e.llmB (backrubAnalysisMsgs q) = .ok a)
    (hnotool : backrubContributions e = []) :
    backrubRespond e q
      = .ok (if strContains (lowerStr (pyStripWs a)) "financial"
             then noToolText q ++ finTail
             else noToolText q ++ generalTail) := by
  unfold backrubRespond
  rw [hllm, hnotool]
  rfl

/-- A concrete instance of the amended C8: no tools, analysis answer
without financial context, fixed apology fallback. -/
theorem C8_witness :
    backrubRespond envC8 "q2"
      = .ok (if strContains (lowerStr (pyStripWs "A direct answer to the query")) "financial"
             then noToolText "q2" ++ finTail
             else noToolText "q2" ++ generalTail) :=
  C8_no_tool_fixed_fallback envC8 "q2" "A direct answer to the query" rfl rfl

/-! ### C9: guarded tool calls never fail the research worker -/

/-- C9: a lookup tool that raises contributes exactly nothing (the
response equals the one for an empty tool result), tools skipped as
unconfigured contribute nothing whatever their outcomes would have
been, and the worker still returns a nonempty response whenever its
own capability call succeeds. -/
theorem C9_tool_failures_never_fail_worker :
    (∀ (e : Env) (q : String),
        backrubRespond { e with webCall := .raised } q
          = backrubRespond { e with webCall := .ok "" } q) ∧
    (∀ (e : Env) (q : String),
        backrubRespond { e with wikiCall := .raised } q
          = backrubRespond { e with wikiCall := .ok "" } q) ∧
    (∀ (e : Env) (q : String) (c1 c2 c1' c2' : CallOutcome),
        backrubRespond { e with toolsAvail := false, webCall := c1, wikiCall := c2 } q
          = backrubRespond { e with toolsAvail := false, webCall := c1', wikiCall := c2' } q) ∧
    (∀ (e : Env) (q a : String), e.llmB (backrubAnalysisMsgs q) = .ok a →
        ∃ r, backrubRespond e q = .ok r ∧ r ≠ "") := by
  refine ⟨?_, ?_, ?_, ?_⟩
  · intro e q
    cases hllm : e.llmB (backrubAnalysisMsgs q) <;>
      simp [backrubRespond, backrubContributions, toolContribution, hllm]
  · intro e q
    cases hllm : e.llmB (backrubAnalysisMsgs q) <;>
      simp [backrubRespond, backrubContributions, toolContribution, hllm]
  · intro e q c1 c2 c1' c2'
    cases hllm : e.llmB (backrubAnalysisMsgs q) <;>
      simp [backrubRespond, backrubContributions, toolContribution, hllm]
  · intro e q a hllm
    unfold backrubRespond
    rw [hllm]
    refine ⟨_, rfl, ?_⟩
    split
    · exact strAppend_ne_empty _ _ (by decide)
    · exact strAppend_ne_empty _ _ (by decide)

/-- A concrete instance of C9: both tool calls raise, yet the worker
answers. -/
theorem C9_witness :
    ∃ r, backrubRespond envC9 "query" = .ok r ∧ r ≠ "" :=
  C9_tool_failures_never_fail_worker.2.2.2 envC9 "query" "general" rfl

/-! ### C10: referral signals on the single routes are only recorded -/

/-- C10: on the single routes, the referral tokens in the worker's
response only set `coordination_needed` and `suggested_agent`: the
trace shows exactly one worker invocation (the peer is never called),
and `final_response` is the 300-character format of that worker's
result, independent of the referral signal.  First conjunct: research
route; second: finance route. -/
theorem C10_single_route_referral_only_recorded :
    (∀ (e : Env) (q raw research : String),
        e.llmA (classifyMsgs q) = .ok raw →
        agentFor (normalizeClassification raw) = "backrub" →
        backrubRespond e q = .ok research →
        (runAnorvisFull e q).2 = ⟨[q], []⟩ ∧
        (runAnorvisFull e q).1.map AnorvisState.coordination_needed
          = .ok (strContains (lowerStr research) "coordinate" || strContains (lowerStr research) "warren") ∧
        (runAnorvisFull e q).1.map AnorvisState.suggested_agent
          = .ok (if strContains (lowerStr research) "coordinate" || strContains (lowerStr research) "warren"
                 then "warren" else "") ∧
        (runAnorvisFull e q).1.map AnorvisState.financial_analysis = .ok "" ∧
        (runAnorvisFull e q).1.map AnorvisState.final_response
          = .ok (researchOnlyFormat research)) ∧
    (∀ (e : Env) (q raw fin : String),
        e.llmA (classifyMsgs q) = .ok raw →
        agentFor (normalizeClassification raw) = "warren" →
        warrenRespond e q = .ok fin →
        fin ≠ "" →
        (runAnorvisFull e q).2 = ⟨[], [q]⟩ ∧
        (runAnorvisFull e q).1.map AnorvisState.coordination_needed
          = .ok (strContains (lowerStr fin) "coordinate" || strContains (lowerStr fin) "backrub") ∧
        (runAnorvisFull e q).1.map AnorvisState.suggested_agent
          = .ok (if strContains (lowerStr fin) "coordinate" || strContains (lowerStr fin) "backrub"
                 then "backrub" else "") ∧
        (runAnorvisFull e q).1.map AnorvisState.research_results = .ok "" ∧
        (runAnorvisFull e q).1.map AnorvisState.final_response
          = .ok (financeOnlyFormat fin)) := by
  constructor
  · intro e q raw research hc hag hres
    have hc' := classify_query_ok e q raw hc
    rw [hag] at hc'
    have hrb := route_to_backrub_ok e { initialState q with current_agent := "backrub" } research hres
    have hd2 := ((dispatch_on_agent e { initialState q with current_agent := "backrub" }).2.1 rfl).trans hrb
    have hne := backrubRespond_ok_ne_empty e q research hres
    have hall := run_compose_ok e q _ _ _ _ hc' hd2 (finalize_research_single e _ rfl hne)
    refine ⟨?_, ?_, ?_, ?_, ?_⟩ <;> rw [hall]
    · rfl
    · cases strContains (lowerStr research) "coordinate" || strContains (lowerStr research) "warren" <;> rfl
    · cases strContains (lowerStr research) "coordinate" || strContains (lowerStr research) "warren" <;> rfl
    · rfl
    · rfl
  · intro e q raw fin hc hag hfr hne
    have hc' := classify_query_ok e q raw hc
    rw [hag] at hc'
    have hrw := route_to_warren_ok e { initialState q with current_agent := "warren" } fin hfr
    have hd2 := ((dispatch_on_agent e { initialState q with current_agent := "warren" }).2.2.1 rfl).trans hrw
    have hall := run_compose_ok e q _ _ _ _ hc' hd2 (finalize_finance_single e _ rfl rfl hne)
    refine ⟨?_, ?_, ?_, ?_, ?_⟩ <;> rw [hall]
    · rfl
    · cases strContains (lowerStr fin) "coordinate" || strContains (lowerStr fin) "backrub" <;> rfl
    · cases strContains (lowerStr fin) "coordinate" || strContains (lowerStr fin) "backrub" <;> rfl
    · rfl
    · rfl

/-- A concrete instance of C10 for both single routes: a research run
whose web result mentions "Warren" records the referral flags but
never calls the Finance worker; a finance run whose response suggests
coordination records the flags but never calls the Research worker. -/
theorem C10_witness :
    ((runAnorvisFull envC10a "topic").2 = ⟨["topic"], []⟩ ∧
     (runAnorvisFull envC10a "topic").1.map AnorvisState.coordination_needed
       = .ok (strContains (lowerStr researchC10) "coordinate" || strContains (lowerStr researchC10) "warren") ∧
     (runAnorvisFull envC10a "topic").1.map AnorvisState.suggested_agent
       = .ok (if strContains (lowerStr researchC10) "coordinate" || strContains (lowerStr researchC10) "warren"
              then "warren" else "") ∧
     (runAnorvisFull envC10a "topic").1.map AnorvisState.financial_analysis = .ok "" ∧
     (runAnorvisFull envC10a "topic").1.map AnorvisState.final_response
       = .ok (researchOnlyFormat researchC10)) ∧
    ((runAnorvisFull envC10b "money").2 = ⟨[], ["money"]⟩ ∧
     (runAnorvisFull envC10b "money").1.map AnorvisState.coordination_needed
       = .ok (strContains (lowerStr financeC10) "coordinate" || strContains (lowerStr financeC10) "backrub") ∧
     (runAnorvisFull envC10b "money").1.map AnorvisState.suggested_agent
       = .ok (if strContains (lowerStr financeC10) "coordinate" || strContains (lowerStr financeC10) "backrub"
              then "backrub" else "") ∧
     (runAnorvisFull envC10b "money").1.map AnorvisState.research_results = .ok "" ∧
     (runAnorvisFull envC10b "money").1.map AnorvisState.final_response
       = .ok (financeOnlyFormat financeC10)) :=
  ⟨C10_single_route_referral_only_recorded.1 envC10a "topic" "backrub" researchC10
     rfl (by decide) rfl,
   C10_single_route_referral_only_recorded.2 envC10b "money" "warren" financeC10
     rfl (by decide) rfl (by decide)⟩

end Anorvis
